import Mathlib

/-
Verification of the viewport-synchronization and overlay-contrast core of the
`comparadorv1` dual-pane PDF comparator (`src/App.tsx`, with a near-duplicate
older variant of the same file).  Scales, scroll positions and pixel
coordinates are JavaScript numbers used for ordinary arithmetic; we embed them
as rationals (ℚ).  React state updates are embedded as pure transition
functions on explicit state records, and `useEffect` bodies as separate
functions run after a handler exactly when the effect's dependency list
changed, mirroring React's semantics.
-/

namespace Comparador

/-! ## Zoom synchronization (Sync Coordinator, zoom half)

State held by `App`: `leftScale`, `rightScale` (initially 1), `syncZoom`
(initially true) and `zoomDiff` (initially 0).  `changeLeftZoom` /
`changeRightZoom` are the click handlers; the `zoomDiff` effect re-runs after a
render when its dependency list changed and, if `syncZoom` is set, stores
`rightScale - leftScale` into `zoomDiff`. -/

structure ZoomState where
  leftScale : ℚ
  rightScale : ℚ
  syncZoom : Bool
  zoomDiff : ℚ
  deriving DecidableEq, Repr

/-- Source: `Math.max(0.5, Math.min(2, x))`. -/
def clampScale (x : ℚ) : ℚ := max (1/2) (min 2 x)

/-- Source `changeLeftZoom` (App.tsx lines 637-643): clamp the new left scale;
if `syncZoom`, set the right scale to `newScale + zoomDiff` (no clamping). -/
def changeLeftZoom (delta : ℚ) (s : ZoomState) : ZoomState :=
  let newScale := clampScale (s.leftScale + delta)
  { s with
    leftScale := newScale
    rightScale := if s.syncZoom then newScale + s.zoomDiff else s.rightScale }

/-- Source `changeRightZoom` (App.tsx lines 645-651). -/
def changeRightZoom (delta : ℚ) (s : ZoomState) : ZoomState :=
  let newScale := clampScale (s.rightScale + delta)
  { s with
    rightScale := newScale
    leftScale := if s.syncZoom then newScale - s.zoomDiff else s.leftScale }

/-- Body of the `zoomDiff` effect (App.tsx lines 503-507 / part_000 lines
180-184): `if (syncZoom) setZoomDiff(rightScale - leftScale)`. -/
def zoomDiffEffect (s : ZoomState) : ZoomState :=
  if s.syncZoom then { s with zoomDiff := s.rightScale - s.leftScale } else s

/-- Dependency list of the `zoomDiff` effect in `src/src/App.tsx`:
`[syncZoom, rightScale, leftScale]`.  The effect re-runs iff some dependency
changed. -/
def zoomDepsChangedMain (prev next : ZoomState) : Bool :=
  !(prev.syncZoom == next.syncZoom
      && decide (prev.rightScale = next.rightScale)
      && decide (prev.leftScale = next.leftScale))

/-- Dependency list of the `zoomDiff` effect in the `part_000` variant:
`[syncZoom]` only. -/
def zoomDepsChangedAlt (prev next : ZoomState) : Bool :=
  !(prev.syncZoom == next.syncZoom)

/-- Source: the Zoom link button runs `setSyncZoom(prev => !prev)`. -/
def toggleSyncZoom (s : ZoomState) : ZoomState := { s with syncZoom := !s.syncZoom }

/-- User events that touch the zoom-sync state. -/
inductive ZoomEvent where
  | toggleSync
  | changeLeft (delta : ℚ)
  | changeRight (delta : ℚ)

def zoomHandler : ZoomEvent → ZoomState → ZoomState
  | .toggleSync, s => toggleSyncZoom s
  | .changeLeft d, s => changeLeftZoom d s
  | .changeRight d, s => changeRightZoom d s

/-- One event of the `src/src/App.tsx` variant: run the handler, then re-run
the `zoomDiff` effect iff its dependencies changed. -/
def zoomStepMain (e : ZoomEvent) (s : ZoomState) : ZoomState :=
  let s' := zoomHandler e s
  if zoomDepsChangedMain s s' then zoomDiffEffect s' else s'

def zoomRunMain (es : List ZoomEvent) (s : ZoomState) : ZoomState :=
  es.foldl (fun a e => zoomStepMain e a) s

/-- Initial state: `leftScale = rightScale = 1`, `syncZoom = true`, and after
the mount-time effect run, `zoomDiff = 0`. -/
def zoomInit : ZoomState := ⟨1, 1, true, 0⟩

/-- Event trace reaching a state with `leftScale = 1`, `rightScale = 2`,
`syncZoom = true`, `zoomDiff = 1`: unlink, zoom the right side up ten times,
relink (the effect recomputes the offset), then zoom the left side up once. -/
def zoomTraceC1 : List ZoomEvent :=
  [ZoomEvent.toggleSync] ++ List.replicate 10 (ZoomEvent.changeRight (1/10))
    ++ [ZoomEvent.toggleSync, ZoomEvent.changeLeft (1/10)]

/-! ### Claims C1, C2, C4, C7 -/

/-- Claim C1, counterexample: the state reached by `zoomTraceC1` from the
initial state is linked with `leftScale = 1`, `rightScale = 2`,
`zoomDiff = 1`; one more left zoom-in produces `rightScale = 2.1`, outside
`[0.5, 2.0]` — the derived side is not clamped, refuting the claim. -/
theorem changeScale_range_counterexample :
    (zoomRunMain zoomTraceC1 zoomInit).syncZoom = true ∧
    (zoomRunMain zoomTraceC1 zoomInit).rightScale = 21/10 ∧
    ¬ (zoomRunMain zoomTraceC1 zoomInit).rightScale ≤ 2 := by
  norm_num [zoomRunMain, zoomTraceC1, zoomInit, zoomStepMain, zoomHandler, changeLeftZoom,
    changeRightZoom, zoomDiffEffect, zoomDepsChangedMain, toggleSyncZoom, clampScale,
    List.replicate, max_def, min_def]

/-- Claim C1 (amended): a zoom change always clamps the driven side into
`[0.5, 2.0]`; when zoom linking is enabled, the derived other side is set to
`newScale ± zoomOffset` without clamping, so it can lie outside `[0.5, 2.0]`. -/
theorem changeScale_range_amended (delta : ℚ) (s : ZoomState) :
    (1/2 ≤ (changeLeftZoom delta s).leftScale ∧ (changeLeftZoom delta s).leftScale ≤ 2) ∧
    (1/2 ≤ (changeRightZoom delta s).rightScale ∧ (changeRightZoom delta s).rightScale ≤ 2) ∧
    (s.syncZoom = true →
      (changeLeftZoom delta s).rightScale = clampScale (s.leftScale + delta) + s.zoomDiff ∧
      (changeRightZoom delta s).leftScale = clampScale (s.rightScale + delta) - s.zoomDiff) := by
  refine ⟨⟨?_, ?_⟩, ⟨?_, ?_⟩, fun h => ?_⟩
  · exact le_max_left _ _
  · exact max_le (by norm_num) (min_le_left _ _)
  · exact le_max_left _ _
  · exact max_le (by norm_num) (min_le_left _ _)
  · simp [changeLeftZoom, changeRightZoom, h]

/-- Witness for `changeScale_range_amended` at `delta = 1/10` and the initial
state. -/
theorem changeScale_range_amended_witness :
    zoomInit.syncZoom = true ∧
    (changeLeftZoom (1/10) zoomInit).rightScale
      = clampScale (zoomInit.leftScale + 1/10) + zoomInit.zoomDiff :=
  ⟨by norm_num [zoomInit], ((changeScale_range_amended (1/10) zoomInit).2.2 (by norm_num [zoomInit])).1⟩

/-- Claim C2, counterexample: from `leftScale = 0.5`, `rightScale = 2.0`,
linked with `zoomOffset = 1.5`, increasing the left scale by `0.1` yields
`leftScale = 0.6` but `rightScale = 2.1`, not the claimed clamp to `2.0`. -/
theorem linked_changeScale_formula_counterexample :
    (changeLeftZoom (1/10) ⟨1/2, 2, true, 3/2⟩).leftScale = 3/5 ∧
    (changeLeftZoom (1/10) ⟨1/2, 2, true, 3/2⟩).rightScale = 21/10 ∧
    (changeLeftZoom (1/10) ⟨1/2, 2, true, 3/2⟩).rightScale ≠ 2 := by
  norm_num [changeLeftZoom, clampScale, max_def, min_def]

/-- Claim C2 (amended): when zoom linking is enabled, `changeScale` on one side
sets that side to `clamp(currentScale + delta, 0.5, 2.0)` and sets the other
side to `newScale ± zoomOffset` without clamping (right = left + offset,
left = right − offset); in particular, from `leftScale = 0.5`,
`rightScale = 2.0`, `zoomOffset = 1.5`, increasing the left scale by `0.1`
yields `left = 0.6` and `right = 2.1`. -/
theorem linked_changeScale_formula (delta : ℚ) (s : ZoomState) (h : s.syncZoom = true) :
    (changeLeftZoom delta s).leftScale = clampScale (s.leftScale + delta) ∧
    (changeLeftZoom delta s).rightScale = clampScale (s.leftScale + delta) + s.zoomDiff ∧
    (changeRightZoom delta s).rightScale = clampScale (s.rightScale + delta) ∧
    (changeRightZoom delta s).leftScale = clampScale (s.rightScale + delta) - s.zoomDiff ∧
    (changeLeftZoom (1/10) ⟨1/2, 2, true, 3/2⟩).leftScale = 3/5 ∧
    (changeLeftZoom (1/10) ⟨1/2, 2, true, 3/2⟩).rightScale = 21/10 := by
  refine ⟨by simp [changeLeftZoom], by simp [changeLeftZoom, h],
    by simp [changeRightZoom], by simp [changeRightZoom, h], ?_, ?_⟩ <;>
    norm_num [changeLeftZoom, clampScale, max_def, min_def]

/-- Witness for `linked_changeScale_formula` at the configuration from the
claim's example. -/
theorem linked_changeScale_formula_witness :
    (changeLeftZoom (1/10) ⟨1/2, 2, true, 3/2⟩).leftScale
      = clampScale ((ZoomState.mk (1/2) 2 true (3/2)).leftScale + 1/10) :=
  (linked_changeScale_formula (1/10) ⟨1/2, 2, true, 3/2⟩ rfl).1

/-- Claim C4: with zoom linking enabled and stored offset `k`, a single-side
zoom change in which neither the driven side's clamp nor the derived side's
range bound was hit leaves `rightScale − leftScale = k`.  (In the code the
derived side is in fact never clamped, so the equation holds from the driven
side's hypotheses alone, but we state the claim as written.) -/
theorem linked_changeScale_preserves_offset (s : ZoomState) (delta k : ℚ)
    (hsync : s.syncZoom = true) (hk : s.zoomDiff = k) :
    (1/2 ≤ s.leftScale + delta → s.leftScale + delta ≤ 2 →
      1/2 ≤ clampScale (s.leftScale + delta) + k → clampScale (s.leftScale + delta) + k ≤ 2 →
      (changeLeftZoom delta s).rightScale - (changeLeftZoom delta s).leftScale = k) ∧
    (1/2 ≤ s.rightScale + delta → s.rightScale + delta ≤ 2 →
      1/2 ≤ clampScale (s.rightScale + delta) - k → clampScale (s.rightScale + delta) - k ≤ 2 →
      (changeRightZoom delta s).rightScale - (changeRightZoom delta s).leftScale = k) := by
  constructor
  · intro _ _ _ _
    simp [changeLeftZoom, hsync, hk]
  · intro _ _ _ _
    simp [changeRightZoom, hsync, hk]

/-- Witness for `linked_changeScale_preserves_offset` at the initial state with
`delta = 1/10`, `k = 0`. -/
theorem linked_changeScale_preserves_offset_witness :
    (changeLeftZoom (1/10) zoomInit).rightScale - (changeLeftZoom (1/10) zoomInit).leftScale = 0 :=
  (linked_changeScale_preserves_offset zoomInit (1/10) 0 rfl rfl).1
    (by norm_num [zoomInit]) (by norm_num [zoomInit])
    (by norm_num [zoomInit, clampScale, max_def, min_def])
    (by norm_num [zoomInit, clampScale, max_def, min_def])

/-- Claim C7, counterexample: in the `part_000` variant the `zoomDiff` effect
depends only on `syncZoom`, so a linked zoom change that moves both scales
(here `changeLeftZoom 0.1` from the initial state, moving `leftScale` from `1`
to `1.1`) does not re-fire the effect: the offset is not recomputed on scale
changes in that variant, refuting "holds for both source-file variants". -/
theorem zoomDiff_reactive_counterexample :
    zoomInit.syncZoom = true ∧
    zoomInit.leftScale ≠ (changeLeftZoom (1/10) zoomInit).leftScale ∧
    zoomDepsChangedAlt zoomInit (changeLeftZoom (1/10) zoomInit) = false := by
  refine ⟨rfl, ?_, ?_⟩
  · norm_num [zoomInit, changeLeftZoom, clampScale, max_def, min_def]
  · simp [zoomDepsChangedAlt, zoomInit, changeLeftZoom, toggleSyncZoom]

/-- Claim C7 (amended): in the `src/src/App.tsx` variant the effect's
dependency list contains both scales, so the effect re-fires whenever either
scale changes, and a fired effect while linked stores
`rightScale − leftScale` into the offset; the `part_000` variant re-fires it
only when `syncZoom` changes. -/
theorem zoomDiff_reactive_main (prev next : ZoomState)
    (h : prev.leftScale ≠ next.leftScale ∨ prev.rightScale ≠ next.rightScale) :
    zoomDepsChangedMain prev next = true ∧
    (next.syncZoom = true → (zoomDiffEffect next).zoomDiff = next.rightScale - next.leftScale) := by
  constructor
  · rcases h with h | h <;> simp [zoomDepsChangedMain, h]
  · intro hn
    simp [zoomDiffEffect, hn]

/-- Witness for `zoomDiff_reactive_main`: the initial state against the result
of a left zoom-in. -/
theorem zoomDiff_reactive_main_witness :
    zoomDepsChangedMain zoomInit (changeLeftZoom (1/10) zoomInit) = true :=
  (zoomDiff_reactive_main zoomInit (changeLeftZoom (1/10) zoomInit)
    (Or.inl (by norm_num [zoomInit, changeLeftZoom, clampScale, max_def, min_def]))).1

/-! ## Scroll synchronization (Sync Coordinator, scroll half)

State: `syncScroll` (link flag), the `isSyncing` re-entrancy latch (a ref),
the stored `scrollDiff`, and the two containers' `scrollTop` values.
`onLeftScroll` / `onRightScroll` (App.tsx lines 554-572) are the scroll
handlers; `setTimeout(() => isSyncing.current = false, 0)` clears the latch on
the next scheduler tick, modelled by a separate `tick` step. -/

inductive Side where
  | left
  | right
  deriving DecidableEq, Repr

def Side.other : Side → Side
  | .left => .right
  | .right => .left

structure ScrollState where
  syncScroll : Bool
  isSyncing : Bool
  scrollDiff : ℚ
  leftScrollTop : ℚ
  rightScrollTop : ℚ
  deriving DecidableEq, Repr

/-- Source `onLeftScroll` / `onRightScroll`: if not linked or the latch is set,
do nothing; otherwise set the latch and write `scrollTop ± scrollDiff` to the
paired container.  Returns the new state together with the list of
programmatic `scrollTop` writes performed (target side, value written). -/
def onScrollHandler : Side → ℚ → ScrollState → ScrollState × List (Side × ℚ)
  | .left, scrollTop, s =>
    if !s.syncScroll || s.isSyncing then (s, [])
    else
      ({ s with isSyncing := true, rightScrollTop := scrollTop + s.scrollDiff },
        [(Side.right, scrollTop + s.scrollDiff)])
  | .right, scrollTop, s =>
    if !s.syncScroll || s.isSyncing then (s, [])
    else
      ({ s with isSyncing := true, leftScrollTop := scrollTop - s.scrollDiff },
        [(Side.left, scrollTop - s.scrollDiff)])

/-- The write a linked, latch-free scroll event performs on the paired side. -/
def pairedWrite : Side → ℚ → ScrollState → Side × ℚ
  | .left, scrollTop, s => (Side.right, scrollTop + s.scrollDiff)
  | .right, scrollTop, s => (Side.left, scrollTop - s.scrollDiff)

/-- One user-initiated scroll event together with the echo scroll events the
browser fires on the containers just written, all before the `setTimeout`
callback clears the latch.  Returns the final state and every write performed
in the pass. -/
def userScrollPass (side : Side) (scrollTop : ℚ) (s : ScrollState) :
    ScrollState × List (Side × ℚ) :=
  let r1 := onScrollHandler side scrollTop s
  let r2 := r1.2.foldl
    (fun acc w =>
      let r := onScrollHandler w.1 w.2 acc.1
      (r.1, acc.2 ++ r.2))
    (r1.1, [])
  (r2.1, r1.2 ++ r2.2)

/-- The deferred `setTimeout(..., 0)` callback: clear the latch. -/
def tick (s : ScrollState) : ScrollState := { s with isSyncing := false }

/-- Claim C3: while scroll linking is on and the latch is clear, a user scroll
performs exactly the one paired write (driver + offset when left drives right,
driver − offset when right drives left) and its echo performs none; a scroll
event with the latch set or linking off performs no write and leaves the state
unchanged; and the latch set by a sync is still set at the end of the
synchronous pass and is cleared only by the next tick. -/
theorem scroll_echo_guard (s : ScrollState) (side : Side) (scrollTop : ℚ) :
    (s.syncScroll = true → s.isSyncing = false →
      (userScrollPass side scrollTop s).2 = [pairedWrite side scrollTop s] ∧
      (userScrollPass side scrollTop s).1.isSyncing = true ∧
      (tick (userScrollPass side scrollTop s).1).isSyncing = false) ∧
    (s.isSyncing = true →
      (onScrollHandler side scrollTop s).2 = [] ∧ (onScrollHandler side scrollTop s).1 = s) ∧
    (s.syncScroll = false →
      (onScrollHandler side scrollTop s).2 = [] ∧ (onScrollHandler side scrollTop s).1 = s) := by
  refine ⟨fun hlink hfree => ?_, fun hlatch => ?_, fun hoff => ?_⟩
  · cases side <;>
      simp [userScrollPass, onScrollHandler, pairedWrite, tick, hlink, hfree]
  · cases side <;> simp [onScrollHandler, hlatch]
  · cases side <;> simp [onScrollHandler, hoff]

/-- Witness for `scroll_echo_guard`: a linked, latch-free left scroll to 100
with stored offset 7 writes exactly `107` to the right container once. -/
theorem scroll_echo_guard_witness :
    (userScrollPass Side.left 100 ⟨true, false, 7, 0, 0⟩).2 = [(Side.right, 107)] ∧
    (userScrollPass Side.left 100 ⟨true, false, 7, 0, 0⟩).1.isSyncing = true ∧
    (tick (userScrollPass Side.left 100 ⟨true, false, 7, 0, 0⟩).1).isSyncing = false := by
  have h := (scroll_echo_guard ⟨true, false, 7, 0, 0⟩ Side.left 100).1 rfl rfl
  refine ⟨?_, h.2.1, h.2.2⟩
  rw [h.1]
  norm_num [pairedWrite]

/-! ## Contrast panel drag / resize / dock state (ContrastPanel)

State: floating `position {x, y}` (initially (24, 24)), `size
{wRatio, hRatio}` (initially (0.25, 0.25)), the `dragging` / `resizing` flags,
the orthogonal `docked` flag, and the refs `dragOffset` and `resizeStart`.
Global `mousemove` / `mouseup` listeners dispatch on the flags
(App.tsx lines 179-226). -/

structure PanelState where
  posX : ℚ
  posY : ℚ
  wRatio : ℚ
  hRatio : ℚ
  dragging : Bool
  resizing : Bool
  docked : Bool
  dragOffX : ℚ
  dragOffY : ℚ
  startW : ℚ
  startH : ℚ
  startX : ℚ
  startY : ℚ
  deriving DecidableEq, Repr

/-- Source `onMouseMove` (App.tsx lines 189-200), with the pointer position
and the viewport dimensions (`window.innerWidth/Height`) as inputs: while
dragging and not docked, move the panel; while resizing and not docked, apply
the `max(260/220, start + d)` pixel floors and store the dimensions back as
viewport ratios capped at `0.95`. -/
def onMouseMove (clientX clientY innerWidth innerHeight : ℚ) (s : PanelState) : PanelState :=
  let s1 :=
    if s.dragging && !s.docked then
      { s with posX := clientX - s.dragOffX, posY := clientY - s.dragOffY }
    else s
  if s1.resizing && !s1.docked then
    let dx := clientX - s1.startX
    let dy := clientY - s1.startY
    let newW := max 260 (s1.startW + dx)
    let newH := max 220 (s1.startH + dy)
    { s1 with
      wRatio := min (95/100) (newW / innerWidth)
      hRatio := min (95/100) (newH / innerHeight) }
  else s1

/-- Source `onMouseDown` (App.tsx lines 179-188): a press on the drag handle
records the pointer-to-panel offset and starts dragging. -/
def onMouseDown (clientX clientY : ℚ) (onHandle : Bool) (s : PanelState) : PanelState :=
  if onHandle then
    { s with dragging := true, dragOffX := clientX - s.posX, dragOffY := clientY - s.posY }
  else s

/-- Source `onMouseUp` (App.tsx lines 201-204). -/
def onMouseUp (s : PanelState) : PanelState := { s with dragging := false, resizing := false }

/-- Source `startResize` (App.tsx lines 206-217): record the panel's current
pixel rectangle and the pointer position, and start resizing. -/
def startResize (rectW rectH clientX clientY : ℚ) (s : PanelState) : PanelState :=
  { s with resizing := true, startW := rectW, startH := rectH, startX := clientX, startY := clientY }

/-- Source: the dock button runs `setDocked(d => !d)` (App.tsx lines 325-334)
and touches nothing else. -/
def toggleDocked (s : PanelState) : PanelState := { s with docked := !s.docked }

/-- Pointer events the panel's handlers react to. -/
inductive PanelEvent where
  | move (clientX clientY innerWidth innerHeight : ℚ)
  | down (clientX clientY : ℚ) (onHandle : Bool)
  | up
  | resizeStart (rectW rectH clientX clientY : ℚ)

def panelStep : PanelEvent → PanelState → PanelState
  | .move cx cy w h, s => onMouseMove cx cy w h s
  | .down cx cy onHandle, s => onMouseDown cx cy onHandle s
  | .up, s => onMouseUp s
  | .resizeStart rw rh cx cy, s => startResize rw rh cx cy s

def panelRun (es : List PanelEvent) (s : PanelState) : PanelState :=
  es.foldl (fun a e => panelStep e a) s

/-- While docked, no pointer event changes the stored floating geometry or the
docked flag itself. -/
theorem panelStep_docked_fixes_geometry (e : PanelEvent) (s : PanelState)
    (hd : s.docked = true) :
    (panelStep e s).docked = true ∧ (panelStep e s).posX = s.posX ∧
    (panelStep e s).posY = s.posY ∧ (panelStep e s).wRatio = s.wRatio ∧
    (panelStep e s).hRatio = s.hRatio := by
  cases e with
  | move cx cy w h => simp [panelStep, onMouseMove, hd]
  | down cx cy onHandle => cases onHandle <;> simp [panelStep, onMouseDown, hd]
  | up => simp [panelStep, onMouseUp, hd]
  | resizeStart rw rh cx cy => simp [panelStep, startResize, hd]

theorem panelRun_docked_fixes_geometry (es : List PanelEvent) (s : PanelState)
    (hd : s.docked = true) :
    (panelRun es s).docked = true ∧ (panelRun es s).posX = s.posX ∧
    (panelRun es s).posY = s.posY ∧ (panelRun es s).wRatio = s.wRatio ∧
    (panelRun es s).hRatio = s.hRatio := by
  induction es generalizing s with
  | nil => exact ⟨hd, rfl, rfl, rfl, rfl⟩
  | cons e es ih =>
    have h1 := panelStep_docked_fixes_geometry e s hd
    have h2 := ih (panelStep e s) h1.1
    simp only [panelRun, List.foldl_cons] at h2 ⊢
    exact ⟨h2.1, h2.2.1.trans h1.2.1, h2.2.2.1.trans h1.2.2.1,
      h2.2.2.2.1.trans h1.2.2.2.1, h2.2.2.2.2.trans h1.2.2.2.2⟩

/-- Claim C6: `toggleDocked` only flips the docked flag and keeps the stored
position and size; while docked, no pointer event (in particular no
pointer-move) mutates them; hence docking, doing any pointer activity, and
undocking restores the pre-dock position and size exactly. -/
theorem toggleDocked_restores_geometry (s : PanelState) (es : List PanelEvent)
    (h : s.docked = false) :
    (toggleDocked s).docked = true ∧ (toggleDocked s).posX = s.posX ∧
    (toggleDocked s).posY = s.posY ∧ (toggleDocked s).wRatio = s.wRatio ∧
    (toggleDocked s).hRatio = s.hRatio ∧
    ((toggleDocked (panelRun es (toggleDocked s))).docked = false ∧
      (toggleDocked (panelRun es (toggleDocked s))).posX = s.posX ∧
      (toggleDocked (panelRun es (toggleDocked s))).posY = s.posY ∧
      (toggleDocked (panelRun es (toggleDocked s))).wRatio = s.wRatio ∧
      (toggleDocked (panelRun es (toggleDocked s))).hRatio = s.hRatio) := by
  have hdock : (toggleDocked s).docked = true := by simp [toggleDocked, h]
  have hrun := panelRun_docked_fixes_geometry es (toggleDocked s) hdock
  refine ⟨hdock, rfl, rfl, rfl, rfl, ?_, ?_, ?_, ?_, ?_⟩
  · show (!(panelRun es (toggleDocked s)).docked) = false
    rw [hrun.1]
    rfl
  · exact hrun.2.1
  · exact hrun.2.2.1
  · exact hrun.2.2.2.1
  · exact hrun.2.2.2.2

/-- Witness for `toggleDocked_restores_geometry`: the initial panel state,
docked with a drag attempt in between. -/
theorem toggleDocked_restores_geometry_witness :
    (toggleDocked (panelRun
        [PanelEvent.down 5 5 true, PanelEvent.move 200 300 1000 800, PanelEvent.up]
        (toggleDocked ⟨24, 24, 1/4, 1/4, false, false, false, 0, 0, 0, 0, 0, 0⟩))).posX = 24 :=
  ((toggleDocked_restores_geometry ⟨24, 24, 1/4, 1/4, false, false, false, 0, 0, 0, 0, 0, 0⟩
    [PanelEvent.down 5 5 true, PanelEvent.move 200 300 1000 800, PanelEvent.up]
    rfl).2.2.2.2.2).2.1

/-- Claim C5, counterexample: at viewport size 100×100 the 260-pixel floor
translates to ratio 2.6, but a resizing pointer-move stores the capped ratio
0.95 < 2.6 — the stored ratio does fall below the floor translated to a ratio
at that viewport size, refuting the claim's unconditional floor bound. -/
theorem resize_ratio_counterexample :
    (onMouseMove 0 0 100 100 ⟨24, 24, 1/4, 1/4, false, true, false, 0, 0, 300, 300, 0, 0⟩).wRatio
      = 19/20 ∧
    ¬ (260 / 100 : ℚ) ≤
      (onMouseMove 0 0 100 100 ⟨24, 24, 1/4, 1/4, false, true, false, 0, 0, 300, 300, 0, 0⟩).wRatio := by
  norm_num [onMouseMove, max_def, min_def]

/-- Claim C5 (amended): while resizing and not docked, every pointer-move
stores `wRatio = min(0.95, max(260, startWidth + dx) / viewportWidth)` and
`hRatio = min(0.95, max(220, startHeight + dy) / viewportHeight)`; for a
positive viewport both ratios lie in `(0, 0.95]`, and each is bounded below by
the pixel floor translated to a ratio capped at 0.95 — i.e. by
`min(0.95, 260 / viewportWidth)` resp. `min(0.95, 220 / viewportHeight)` (the
plain floor ratio only when it does not exceed the 0.95 cap). -/
theorem resize_ratio_bounds (s : PanelState) (cx cy vw vh : ℚ)
    (hres : s.resizing = true) (hdock : s.docked = false) (hw0 : 0 < vw) (hh0 : 0 < vh) :
    (onMouseMove cx cy vw vh s).wRatio
        = min (95/100) (max 260 (s.startW + (cx - s.startX)) / vw) ∧
    (onMouseMove cx cy vw vh s).hRatio
        = min (95/100) (max 220 (s.startH + (cy - s.startY)) / vh) ∧
    0 < (onMouseMove cx cy vw vh s).wRatio ∧
    (onMouseMove cx cy vw vh s).wRatio ≤ 95/100 ∧
    min (95/100) (260 / vw) ≤ (onMouseMove cx cy vw vh s).wRatio ∧
    0 < (onMouseMove cx cy vw vh s).hRatio ∧
    (onMouseMove cx cy vw vh s).hRatio ≤ 95/100 ∧
    min (95/100) (220 / vh) ≤ (onMouseMove cx cy vw vh s).hRatio := by
  have hw : (onMouseMove cx cy vw vh s).wRatio
      = min (95/100) (max 260 (s.startW + (cx - s.startX)) / vw) := by
    cases hb : s.dragging <;> simp [onMouseMove, hres, hdock, hb]
  have hh : (onMouseMove cx cy vw vh s).hRatio
      = min (95/100) (max 220 (s.startH + (cy - s.startY)) / vh) := by
    cases hb : s.dragging <;> simp [onMouseMove, hres, hdock, hb]
  refine ⟨hw, hh, ?_, ?_, ?_, ?_, ?_, ?_⟩
  · rw [hw]
    exact lt_min (by norm_num)
      (div_pos (lt_of_lt_of_le (by norm_num) (le_max_left _ _)) hw0)
  · rw [hw]
    exact min_le_left _ _
  · rw [hw]
    exact min_le_min le_rfl ((div_le_div_iff_of_pos_right hw0).mpr (le_max_left _ _))
  · rw [hh]
    exact lt_min (by norm_num)
      (div_pos (lt_of_lt_of_le (by norm_num) (le_max_left _ _)) hh0)
  · rw [hh]
    exact min_le_left _ _
  · rw [hh]
    exact min_le_min le_rfl ((div_le_div_iff_of_pos_right hh0).mpr (le_max_left _ _))

/-- Witness for `resize_ratio_bounds`: a resize move on a 1000×800 viewport. -/
theorem resize_ratio_bounds_witness :
    0 < (onMouseMove 40 40 1000 800
          ⟨24, 24, 1/4, 1/4, false, true, false, 0, 0, 300, 300, 0, 0⟩).wRatio ∧
    min (95/100) (260 / 1000) ≤ (onMouseMove 40 40 1000 800
          ⟨24, 24, 1/4, 1/4, false, true, false, 0, 0, 300, 300, 0, 0⟩).wRatio := by
  have h := resize_ratio_bounds ⟨24, 24, 1/4, 1/4, false, true, false, 0, 0, 300, 300, 0, 0⟩
    40 40 1000 800 rfl rfl (by norm_num) (by norm_num)
  exact ⟨h.2.2.1, h.2.2.2.2.1⟩

/-! ## Overlay mirror scroll sync (ContrastPanel scroll-sync effect)

While the panel is visible, the effect (App.tsx lines 229-256) attaches scroll
listeners to the two primary containers; the left listener copies the left
primary's `scrollTop` into the left mirror, the right listener symmetrically.
Mirror containers are `pointer-events-none` and have no listeners of their
own: a user scroll event exists only on the primaries.  A scroll event is
modelled as the primary's `scrollTop` taking its new value followed by the
listener (attached only while visible) copying it. -/

structure OverlayScroll where
  leftPrimary : ℚ
  rightPrimary : ℚ
  leftMirror : ℚ
  rightMirror : ℚ
  deriving DecidableEq, Repr

/-- A scroll of the left primary container to `v`, followed by the panel's
`onLeft` listener (`overlayLeftRef.current.scrollTop = leftEl.scrollTop`),
which is attached exactly while the panel is visible. -/
def scrollLeftPrimary (visible : Bool) (v : ℚ) (s : OverlayScroll) : OverlayScroll :=
  let s1 := { s with leftPrimary := v }
  if visible then { s1 with leftMirror := s1.leftPrimary } else s1

/-- A scroll of the right primary container to `v`, followed by the panel's
`onRight` listener. -/
def scrollRightPrimary (visible : Bool) (v : ℚ) (s : OverlayScroll) : OverlayScroll :=
  let s1 := { s with rightPrimary := v }
  if visible then { s1 with rightMirror := s1.rightPrimary } else s1

/-- Claim C8: while the panel is visible, a left-primary scroll to `v` copies
`v` into the left mirror, leaves the right mirror untouched, and writes
nothing back to either primary container beyond the user's own scroll;
symmetrically for the right side. -/
theorem overlay_mirror_one_directional (s : OverlayScroll) (v : ℚ) :
    (scrollLeftPrimary true v s).leftMirror = v ∧
    (scrollLeftPrimary true v s).rightMirror = s.rightMirror ∧
    (scrollLeftPrimary true v s).leftPrimary = v ∧
    (scrollLeftPrimary true v s).rightPrimary = s.rightPrimary ∧
    (scrollRightPrimary true v s).rightMirror = v ∧
    (scrollRightPrimary true v s).leftMirror = s.leftMirror ∧
    (scrollRightPrimary true v s).rightPrimary = v ∧
    (scrollRightPrimary true v s).leftPrimary = s.leftPrimary := by
  simp [scrollLeftPrimary, scrollRightPrimary]

/-! ## Document slots (`leftPDF` / `rightPDF`)

File handles are opaque; we embed them as `Option Nat` (`none` = absent).
`removeDocument` and `swapDocuments` (App.tsx lines 414-438) also reset the
file-input keys to `Date.now()` and `swapDocuments` mirrors the labelled
summary rows. -/

structure SummaryItem where
  label : String
  left : Option String
  right : Option String
  deriving DecidableEq, Repr

structure DocState where
  leftPDF : Option Nat
  rightPDF : Option Nat
  leftInputKey : Nat
  rightInputKey : Nat
  summary : List SummaryItem
  deriving DecidableEq, Repr

/-- Source `swapDocuments` (App.tsx lines 414-427): exchange the two file
handles, reset both input keys to the current time, and swap each summary
row's left/right texts. -/
def swapDocuments (now : Nat) (s : DocState) : DocState :=
  { s with
    leftPDF := s.rightPDF
    rightPDF := s.leftPDF
    leftInputKey := now
    rightInputKey := now
    summary := s.summary.map fun item => ⟨item.label, item.right, item.left⟩ }

/-- Source `removeDocument` (App.tsx lines 430-438): clear that side's handle
and reset that side's input key. -/
def removeDocument (side : Side) (now : Nat) (s : DocState) : DocState :=
  match side with
  | .left => { s with leftPDF := none, leftInputKey := now }
  | .right => { s with rightPDF := none, rightInputKey := now }

/-- Claim C9, counterexample: with both slots full, `swapDocuments` leaves both
handles present (exchanged), not cleared. -/
theorem swap_clears_handles_counterexample :
    (swapDocuments 1 ⟨some 10, some 20, 0, 0, []⟩).leftPDF = some 20 ∧
    (swapDocuments 1 ⟨some 10, some 20, 0, 0, []⟩).leftPDF ≠ none ∧
    (swapDocuments 1 ⟨some 10, some 20, 0, 0, []⟩).rightPDF ≠ none := by
  refine ⟨rfl, ?_, ?_⟩ <;> simp [swapDocuments]

/-- Claim C9 (amended): `removeDocument side` clears that side's handle;
`swapDocuments` exchanges the two handles (a slot becomes absent only when the
other slot was absent), clearing neither. -/
theorem remove_clears_swap_exchanges (s : DocState) (side : Side) (now : Nat) :
    (match side with
      | Side.left => (removeDocument side now s).leftPDF = none
      | Side.right => (removeDocument side now s).rightPDF = none) ∧
    (swapDocuments now s).leftPDF = s.rightPDF ∧
    (swapDocuments now s).rightPDF = s.leftPDF := by
  refine ⟨?_, rfl, rfl⟩
  cases side <;> rfl

/-! ## PDFViewer visible pages (IntersectionObserver callback)

The observer callback (App.tsx lines 58-68, identical in part_000 lines 39-49)
collects the intersecting entries' `data-page-number` values, drops falsy ones
(`.filter(Boolean)`, i.e. the value 0), and updates
`visiblePages` to `[...new Set([...prev, ...visible])].sort((a, b) => a - b)`:
the duplicate-free union of the previous list and the new page numbers, in
ascending numeric order. -/

/-- One run of the IntersectionObserver callback's state update.  `dedup`
followed by an ascending sort produces the same list as JavaScript's
insertion-ordered `Set` spread followed by `.sort((a, b) => a - b)`: both are
the unique ascending duplicate-free enumeration of the union. -/
def updateVisiblePages (prev entries : List ℕ) : List ℕ :=
  let visible := entries.filter fun n => n != 0
  List.insertionSort (· ≤ ·) ((prev ++ visible).dedup)

/-- Membership is preserved: a page already in `visiblePages` survives any
callback run. -/
theorem mem_updateVisiblePages {p : ℕ} {prev : List ℕ} (entries : List ℕ)
    (h : p ∈ prev) : p ∈ updateVisiblePages prev entries := by
  unfold updateVisiblePages
  rw [(List.perm_insertionSort _ _).mem_iff, List.mem_dedup, List.mem_append]
  exact Or.inl h

/-- Membership survives any sequence of callback runs. -/
theorem mem_foldl_updateVisiblePages {p : ℕ} :
    ∀ (runs : List (List ℕ)) (prev : List ℕ), p ∈ prev →
      p ∈ runs.foldl (fun acc e => updateVisiblePages acc e) prev
  | [], _, h => h
  | e :: es, prev, h =>
    mem_foldl_updateVisiblePages es (updateVisiblePages prev e) (mem_updateVisiblePages e h)

/-- Claim C10: every callback result is strictly ascending with no duplicate
page numbers, and the update is monotone: each run only adds page numbers, so
a page present in `visiblePages` is still present after any further sequence
of observer callbacks. -/
theorem visiblePages_sorted_and_monotone (prev entries : List ℕ) (p : ℕ) :
    (updateVisiblePages prev entries).Sorted (· < ·) ∧
    (updateVisiblePages prev entries).Nodup ∧
    (p ∈ prev → p ∈ updateVisiblePages prev entries) ∧
    (∀ runs : List (List ℕ), p ∈ prev →
      p ∈ runs.foldl (fun acc e => updateVisiblePages acc e) prev) := by
  have hnd : (updateVisiblePages prev entries).Nodup :=
    (List.perm_insertionSort _ _).nodup_iff.mpr (List.nodup_dedup _)
  have hle : (updateVisiblePages prev entries).Sorted (· ≤ ·) :=
    List.sorted_insertionSort _ _
  exact ⟨hle.lt_of_le hnd, hnd, fun h => mem_updateVisiblePages entries h,
    fun runs h => mem_foldl_updateVisiblePages runs prev h⟩

/-- Witness for `visiblePages_sorted_and_monotone`: page 3, already visible,
survives two further callback runs. -/
theorem visiblePages_sorted_and_monotone_witness :
    3 ∈ ([[5, 1], [2, 0]] : List (List ℕ)).foldl
      (fun acc e => updateVisiblePages acc e) [3] :=
  (visiblePages_sorted_and_monotone [3] [] 3).2.2.2 [[5, 1], [2, 0]]
    (List.mem_singleton.mpr rfl)

end Comparador
